import Mathlib

/-!
Shallow embedding of the gutter-estimation core of the repository
(backend/services/gutter_calculator.py and the confidence-fusion part of
backend/services/roof_classifier.py).

Conventions of the embedding:
* Python floats are modelled by the rationals; the float literals of the
  source (3.28084, 0.9, ...) become the corresponding exact rationals.
* The transcendental library routines math.sqrt and
  math.cos(math.radians(.)) are not rational functions, so every embedded
  definition that needs them takes two explicit function parameters
  (sqrtQ cosDeg : Rat -> Rat); theorems quantify over these parameters and
  assume only what the mathematical functions in fact satisfy (for example
  nonnegativity of the square root).
* Dictionary lookups with defaults (seg.get(key, 0)) are folded into the
  record fields; lookups whose absence is observable (boundingBox presence,
  truthiness of the center dict, the optional fields of the input roof
  classification) are modelled with Option.
* Python int() is truncation toward zero, math.ceil is the integer ceiling,
  round() is round-half-to-even; they are modelled by pyInt, Int.ceil and
  pyRound below.
* Warning strings are modelled by an enumeration of the warning sites
  (the exact interpolated text carries no further information).
-/

/-- Python int() applied to a rational: truncation toward zero. -/
def pyInt (q : ℚ) : ℤ := if 0 ≤ q then ⌊q⌋ else -⌊-q⌋

/-- Python round() applied to a rational: nearest integer, ties to even. -/
def pyRound (q : ℚ) : ℤ :=
  if q - ⌊q⌋ = 1/2 then (if 2 ∣ ⌊q⌋ then ⌊q⌋ else ⌊q⌋ + 1) else ⌊q + 1/2⌋

/-- Python round(x, 2): rounding to two decimal places. -/
def pyRound2 (q : ℚ) : ℚ := (pyRound (q * 100) : ℚ) / 100

/-- One corner of a segment bounding box (latitude, longitude). -/
structure LatLng where
  lat : ℚ
  lon : ℚ
deriving DecidableEq

/-- A segment bounding box with southwest and northeast corners. -/
structure BoundingBox where
  sw : LatLng
  ne : LatLng
deriving DecidableEq

/-- One raw roof segment as read from the building-insights response.
pitchDegrees, azimuthDegrees and groundArea carry the source defaults
(seg.get(key, 0) and seg.get(stats, {}).get(groundAreaMeters2, 0));
boundingBox is present only when both sw and ne corners are present. -/
structure RawSegment where
  pitchDegrees : ℚ
  azimuthDegrees : ℚ
  groundArea : ℚ
  boundingBox : Option BoundingBox
deriving DecidableEq

/-- The building data consumed by the calculator: the roofSegmentStats list,
the wholeRoofStats ground area (0 when the stats dict or the key is absent
or falsy), and the center latitude (none when the center dict is falsy). -/
structure BuildingData where
  roofSegments : List RawSegment
  wholeRoofArea : ℚ
  center : Option ℚ
deriving DecidableEq

/-- The roof-classification input dict: roof_type and confidence as read
with roof_classification.get(key, default). -/
structure RoofClassificationIn where
  roof_type : Option String
  confidence : Option ℚ
deriving DecidableEq

/-- Meters per degree of longitude and latitude at a given latitude,
from _calculate_meters_per_degree; cosDeg models math.cos(math.radians(.)). -/
def calculate_meters_per_degree (cosDeg : ℚ → ℚ) (latitude : ℚ) : ℚ × ℚ :=
  (111320 * cosDeg latitude, 111132)

/-- Count of distinct azimuths after rounding to 5 decimal places,
as in _validate_roof_type (len(set(round(az, 5) for az in azimuths))). -/
def unique_azimuth_count (segs : List RawSegment) : ℕ :=
  ((segs.map (fun s => pyRound (s.azimuthDegrees * 100000))).dedup).length

/-- Embedding of GutterCalculatorService._validate_roof_type. -/
def validate_roof_type (roof_type : String) (segs : List RawSegment)
    (center : Option ℚ) : String :=
  if segs = [] then roof_type
  else
    let segment_count := segs.length
    let unique_azimuths := unique_azimuth_count segs
    if center.isSome then
      let total_area : ℚ := (segs.map (fun s => s.groundArea)).sum
      if 0 < total_area then
        if segment_count = 1 then
          (if roof_type ≠ "shed" ∧ roof_type ≠ "flat" then "shed" else roof_type)
        else if segment_count = 2 then
          (if roof_type ≠ "gable" then "gable" else roof_type)
        else if 4 ≤ segment_count ∧ 3 ≤ unique_azimuths then
          (if roof_type ≠ "hip" ∧ roof_type ≠ "mansard" ∧ roof_type ≠ "complex"
            then "hip" else roof_type)
        else if 4 < segment_count then
          (if roof_type ≠ "complex" then "complex" else roof_type)
        else roof_type
      else roof_type
    else roof_type

/-- Minimum of a list of rationals (Python min on a nonempty list;
callers guard nonemptiness, the empty default 0 is never reached there). -/
def list_min (l : List ℚ) : ℚ :=
  match l with
  | [] => 0
  | x :: xs => xs.foldl min x

/-- Maximum of a list of rationals (Python max on a nonempty list). -/
def list_max (l : List ℚ) : ℚ :=
  match l with
  | [] => 0
  | x :: xs => xs.foldl max x

/-- All bounding-box latitudes collected by _calculate_building_perimeter. -/
def bbox_lats (segs : List RawSegment) : List ℚ :=
  segs.foldr
    (fun s acc =>
      match s.boundingBox with
      | some b => b.sw.lat :: b.ne.lat :: acc
      | none => acc) []

/-- All bounding-box longitudes collected by _calculate_building_perimeter. -/
def bbox_lons (segs : List RawSegment) : List ℚ :=
  segs.foldr
    (fun s acc =>
      match s.boundingBox with
      | some b => b.sw.lon :: b.ne.lon :: acc
      | none => acc) []

/-- Method 1 of _calculate_building_perimeter: the whole-roof-stats
estimate 4 * sqrt(area), or 0 when the stats entry is absent or falsy. -/
def perimeter_method1 (sqrtQ : ℚ → ℚ) (wholeRoofArea : ℚ) : ℚ :=
  if wholeRoofArea ≠ 0 then 4 * sqrtQ wholeRoofArea else 0

/-- Method 2 of _calculate_building_perimeter: the union-bounding-box
perimeter, replacing the method-1 estimate when positive and when method 1
is absent or the two agree within 30 percent relative difference. -/
def perimeter_method2 (cosDeg : ℚ → ℚ) (segs : List RawSegment)
    (latitude : ℚ) (est1 : ℚ) : ℚ :=
  let mpd := calculate_meters_per_degree cosDeg latitude
  let lats := bbox_lats segs
  let lons := bbox_lons segs
  if segs ≠ [] ∧ lats ≠ [] ∧ lons ≠ [] then
    let lat_span := (list_max lats - list_min lats) * mpd.2
    let lon_span := (list_max lons - list_min lons) * mpd.1
    let bbox_perimeter := 2 * (lat_span + lon_span)
    if 0 < bbox_perimeter ∧
        (est1 = 0 ∨ |bbox_perimeter - est1| / est1 < 0.3) then
      bbox_perimeter
    else est1
  else est1

/-- Method 3 of _calculate_building_perimeter: area-based fallback when the
running estimate is still zero and a ground area is known. -/
def perimeter_method3 (sqrtQ : ℚ → ℚ) (ground_area est2 : ℚ) : ℚ :=
  if est2 = 0 ∧ 0 < ground_area then 4 * sqrtQ ground_area else est2

/-- Final plausibility clamp of _calculate_building_perimeter: a positive
estimate is clamped into the residential band of 20 to 200 meters. -/
def clamp_perimeter (est : ℚ) : ℚ :=
  if 0 < est then (if est < 20 then 20 else if 200 < est then 200 else est)
  else est

/-- Embedding of GutterCalculatorService._calculate_building_perimeter.
Returns (estimated perimeter in meters, ground area in square meters).
The truthiness test on wholeRoofStats and its groundAreaMeters2 entry is
the disequality with 0 (absent stats are folded to area 0). -/
def calculate_building_perimeter (sqrtQ cosDeg : ℚ → ℚ)
    (segs : List RawSegment) (center : Option ℚ) (wholeRoofArea : ℚ) :
    ℚ × ℚ :=
  let latitude := center.getD 40
  let ground_area := if wholeRoofArea ≠ 0 then wholeRoofArea else 0
  let est1 := perimeter_method1 sqrtQ wholeRoofArea
  let est2 := perimeter_method2 cosDeg segs latitude est1
  let est3 := perimeter_method3 sqrtQ ground_area est2
  (clamp_perimeter est3, ground_area)

/-- One processed segment as appended by _process_roof_segments_improved
(the duplicate pitch key of the source dict carries the same value as
pitch_degrees and is omitted). -/
structure ProcessedSegment where
  area_m2 : ℚ
  pitch_degrees : ℚ
  azimuth : ℚ
  eave_m : ℚ
  depth_m : ℚ
  bbox : Option BoundingBox
deriving DecidableEq

/-- Embedding of GutterCalculatorService._calculate_eave_length_from_area. -/
def calculate_eave_length_from_area (sqrtQ cosDeg : ℚ → ℚ)
    (ground_area pitch_degrees : ℚ) : ℚ :=
  if pitch_degrees ≤ 0 then sqrtQ ground_area
  else sqrtQ (ground_area / cosDeg pitch_degrees)

/-- The per-segment body of the loop of _process_roof_segments_improved.
Returns the appended segment (none when the iteration raises and is
skipped) and the value of the loop-carried local variable depth_m after
the iteration.  The source assigns depth_m only under eave_m > 0; when
eave_m is not positive the dict construction reads the depth_m left over
from an earlier iteration, and raises UnboundLocalError (caught, segment
skipped) when no iteration has assigned it yet. -/
def process_one_segment (sqrtQ cosDeg : ℚ → ℚ) (mLon mLat : ℚ)
    (allSegs : List RawSegment) (perimeter_m : ℚ) (s : RawSegment)
    (lastDepth : Option ℚ) : Option ProcessedSegment × Option ℚ :=
  let e1 :=
    match s.boundingBox with
    | some b =>
      let lat_span := |b.ne.lat - b.sw.lat| * mLat
      let lon_span := |b.ne.lon - b.sw.lon| * mLon
      let e := max lat_span lon_span
      if 0 < s.pitchDegrees then e / cosDeg s.pitchDegrees else e
    | none => 0
  let e2 :=
    if e1 = 0 ∧ 0 < s.groundArea then
      calculate_eave_length_from_area sqrtQ cosDeg s.groundArea s.pitchDegrees
    else e1
  let e3 :=
    if e2 = 0 ∧ 0 < perimeter_m then
      let total_segment_area := (allSegs.map (fun t => t.groundArea)).sum
      if 0 < total_segment_area then
        perimeter_m * (s.groundArea / total_segment_area) * 0.25
      else e2
    else e2
  if 0 < e3 then
    let d := s.groundArea / e3
    (some ⟨s.groundArea, s.pitchDegrees, s.azimuthDegrees, e3, d, s.boundingBox⟩,
      some d)
  else
    match lastDepth with
    | some d =>
      (some ⟨s.groundArea, s.pitchDegrees, s.azimuthDegrees, e3, d, s.boundingBox⟩,
        some d)
    | none => (none, none)

/-- The loop of _process_roof_segments_improved, threading the leaked
depth_m local through the iterations. -/
def process_segments_loop (sqrtQ cosDeg : ℚ → ℚ) (mLon mLat : ℚ)
    (allSegs : List RawSegment) (perimeter_m : ℚ) :
    List RawSegment → Option ℚ → List ProcessedSegment
  | [], _ => []
  | s :: rest, lastDepth =>
    match process_one_segment sqrtQ cosDeg mLon mLat allSegs perimeter_m s lastDepth with
    | (some p, last2) =>
      p :: process_segments_loop sqrtQ cosDeg mLon mLat allSegs perimeter_m rest last2
    | (none, last2) =>
      process_segments_loop sqrtQ cosDeg mLon mLat allSegs perimeter_m rest last2

/-- Embedding of GutterCalculatorService._process_roof_segments_improved. -/
def process_roof_segments_improved (sqrtQ cosDeg : ℚ → ℚ)
    (segs : List RawSegment) (center : Option ℚ) (perimeter_m : ℚ) :
    List ProcessedSegment :=
  let latitude := center.getD 40
  let mpd := calculate_meters_per_degree cosDeg latitude
  process_segments_loop sqrtQ cosDeg mpd.1 mpd.2 segs perimeter_m segs none

/-- The complexity factor by segment count used at the end of
_calculate_eave_length_improved. -/
def segment_complexity_factor (segment_count : ℕ) : ℚ :=
  if segment_count ≤ 2 then 1.0
  else if segment_count ≤ 4 then 1.2
  else 1.4

/-- Embedding of GutterCalculatorService._calculate_eave_length_improved.
Returns (total eave length in meters, complexity factor). -/
def calculate_eave_length_improved (roof_type : String)
    (processed_segments : List ProcessedSegment)
    (perimeter_m building_footprint_m2 : ℚ) : ℚ × ℚ :=
  if processed_segments = [] then (0, 1)
  else if roof_type = "hip" ∧ 0 < perimeter_m then (perimeter_m * 0.5, 1.2)
  else if roof_type = "gable" ∧ 0 < perimeter_m then (perimeter_m * 0.5, 1.0)
  else
    let segment_eave_sum : ℚ := (processed_segments.map (fun s => s.eave_m)).sum
    let capped :=
      if 0 < perimeter_m ∧ perimeter_m * 1.2 < segment_eave_sum then
        perimeter_m * 0.9
      else segment_eave_sum
    (capped, segment_complexity_factor processed_segments.length)

/-- The per-roof-type base waste of _calculate_dynamic_waste_factor
(type_waste.get(roof_type, 0.02)). -/
def type_waste (roof_type : String) : ℚ :=
  if roof_type = "flat" then 0.01
  else if roof_type = "shed" then 0.015
  else if roof_type = "gable" then 0.02
  else if roof_type = "gambrel" then 0.025
  else if roof_type = "hip" then 0.025
  else if roof_type = "mansard" then 0.03
  else if roof_type = "complex" then 0.035
  else if roof_type = "unknown" then 0.02
  else 0.02

/-- Embedding of GutterCalculatorService._calculate_dynamic_waste_factor. -/
def calculate_dynamic_waste_factor (roof_type : String)
    (complexity_factor : ℚ) (segment_count : ℕ) : ℚ :=
  let base_waste := type_waste roof_type
  let complexity_waste := (complexity_factor - 1) * 0.01
  let segment_waste := max 0 (((segment_count : ℚ) - 2) * 0.003)
  let corner_waste : ℚ :=
    if roof_type = "hip" ∨ roof_type = "mansard" ∨ roof_type = "complex" then
      0.005
    else 0
  min 0.06 (max 0.01 (base_waste + complexity_waste + segment_waste + corner_waste))

/-- Embedding of GutterCalculatorService._estimate_downspouts_improved.
The processed_segments parameter is unused in the source body as well. -/
def estimate_downspouts_improved (roof_type : String) (total_eave_m : ℚ)
    (processed_segments : List ProcessedSegment) : ℤ :=
  let base_downspouts : ℤ := max 2 ⌈total_eave_m * 3.28084 / 45⌉
  if roof_type = "flat" then 1
  else if roof_type = "shed" then 2
  else if roof_type = "gable" ∨ roof_type = "gambrel" then
    max 2 (pyInt ((base_downspouts : ℚ) * 0.9))
  else if roof_type = "hip" ∨ roof_type = "mansard" then
    max 4 (pyInt ((base_downspouts : ℚ) * 1.1))
  else if roof_type = "complex" then
    max 4 (pyInt ((base_downspouts : ℚ) * 1.2))
  else base_downspouts

/-- The warning sites of _generate_warnings_improved, in source order. -/
inductive GutterWarning
  | eaveExceedsPerimeter
  | eaveLowVsPerimeter
  | fewSegments
  | unknownRoofType
  | largeRoof
  | smallRoof
deriving DecidableEq

/-- Embedding of GutterCalculatorService._generate_warnings_improved. -/
def generate_warnings_improved (roof_type : String) (total_gutter_ft : ℤ)
    (total_eave_m : ℚ) (processed_segments : List ProcessedSegment)
    (wholeRoofArea : ℚ) (perimeter_m : ℚ) : List GutterWarning :=
  let w1 : List GutterWarning :=
    if 0 < perimeter_m then
      let ratio := total_eave_m / perimeter_m
      if 1 < ratio then [GutterWarning.eaveExceedsPerimeter]
      else if ratio < 0.3 then [GutterWarning.eaveLowVsPerimeter]
      else []
    else []
  let w2 : List GutterWarning :=
    if processed_segments.length < 2 ∧ roof_type ≠ "flat" ∧ roof_type ≠ "shed"
      then [GutterWarning.fewSegments] else []
  let w3 : List GutterWarning :=
    if roof_type = "unknown" then [GutterWarning.unknownRoofType] else []
  let w4 : List GutterWarning :=
    if 100 < total_eave_m then [GutterWarning.largeRoof]
    else if total_eave_m < 10 then [GutterWarning.smallRoof]
    else []
  w1 ++ w2 ++ w3 ++ w4

/-- The min/max/target record of the estimated range. -/
structure EstimatedRange where
  min : ℤ
  max : ℤ
  target : ℤ
deriving DecidableEq

/-- Final gutter total of estimate_gutter_feet: the preliminary
ceil(eave_ft * (1 + waste)) and, inside the perimeter guard, the
perimeter-based recomputation. -/
def final_gutter_total (perimeter_m total_eave_m waste : ℚ) : ℤ :=
  if 0 < perimeter_m ∧ perimeter_m * 3.28084 * 1.3 <
      ((⌈total_eave_m * 3.28084 * (1 + waste)⌉ : ℤ) : ℚ) then
    ⌈perimeter_m * 3.28084 * 0.9 * (1 + waste)⌉
  else ⌈total_eave_m * 3.28084 * (1 + waste)⌉

/-- Final (pre-rounding) eave length in feet of estimate_gutter_feet,
reset to perimeter_ft * 0.9 under the same guard as final_gutter_total. -/
def final_eave_ft (perimeter_m total_eave_m waste : ℚ) : ℚ :=
  if 0 < perimeter_m ∧ perimeter_m * 3.28084 * 1.3 <
      ((⌈total_eave_m * 3.28084 * (1 + waste)⌉ : ℤ) : ℚ) then
    perimeter_m * 3.28084 * 0.9
  else total_eave_m * 3.28084

/-- The estimated-range construction of estimate_gutter_feet, with
range_percentage = 0.08 + (complexity_factor - 1) * 0.03. -/
def estimated_range_of (total_gutter_ft : ℤ) (complexity_factor : ℚ) :
    EstimatedRange :=
  ⟨max 1 (pyInt ((total_gutter_ft : ℚ) *
      (1 - (0.08 + (complexity_factor - 1) * 0.03)))),
    pyInt ((total_gutter_ft : ℚ) *
      (1 + (0.08 + (complexity_factor - 1) * 0.03))),
    total_gutter_ft⟩

/-- The result record of estimate_gutter_feet. -/
structure GutterEstimate where
  eave_length_ft : ℚ
  total_gutter_ft : ℤ
  waste_factor : ℚ
  roof_type : String
  confidence : ℚ
  warnings : List GutterWarning
  estimated_range : EstimatedRange
  downspouts_estimate : ℤ
  complexity_factor : ℚ
  perimeter_m : ℚ
  building_footprint_m2 : ℚ
deriving DecidableEq

/-- The validated roof type of the pipeline (estimate_gutter_feet line
extracting roof_type with default unknown, then _validate_roof_type). -/
def pipeline_roof_type (bd : BuildingData) (rc : RoofClassificationIn) : String :=
  validate_roof_type (rc.roof_type.getD "unknown") bd.roofSegments bd.center

/-- The building perimeter computed by the pipeline. -/
def pipeline_perimeter (sqrtQ cosDeg : ℚ → ℚ) (bd : BuildingData) : ℚ :=
  (calculate_building_perimeter sqrtQ cosDeg bd.roofSegments bd.center
    bd.wholeRoofArea).1

/-- The building footprint area computed by the pipeline. -/
def pipeline_footprint (sqrtQ cosDeg : ℚ → ℚ) (bd : BuildingData) : ℚ :=
  (calculate_building_perimeter sqrtQ cosDeg bd.roofSegments bd.center
    bd.wholeRoofArea).2

/-- The processed segments computed by the pipeline. -/
def pipeline_segments (sqrtQ cosDeg : ℚ → ℚ) (bd : BuildingData) :
    List ProcessedSegment :=
  process_roof_segments_improved sqrtQ cosDeg bd.roofSegments bd.center
    (pipeline_perimeter sqrtQ cosDeg bd)

/-- The (total eave length, complexity factor) pair computed by the pipeline. -/
def pipeline_eave_cf (sqrtQ cosDeg : ℚ → ℚ) (bd : BuildingData)
    (rc : RoofClassificationIn) : ℚ × ℚ :=
  calculate_eave_length_improved (pipeline_roof_type bd rc)
    (pipeline_segments sqrtQ cosDeg bd) (pipeline_perimeter sqrtQ cosDeg bd)
    (pipeline_footprint sqrtQ cosDeg bd)

/-- The dynamic waste factor computed by the pipeline. -/
def pipeline_waste (sqrtQ cosDeg : ℚ → ℚ) (bd : BuildingData)
    (rc : RoofClassificationIn) : ℚ :=
  calculate_dynamic_waste_factor (pipeline_roof_type bd rc)
    (pipeline_eave_cf sqrtQ cosDeg bd rc).2
    (pipeline_segments sqrtQ cosDeg bd).length

/-- Embedding of GutterCalculatorService.estimate_gutter_feet, assembled
from the pipeline components above in the order of the source method. -/
def estimate_gutter_feet (sqrtQ cosDeg : ℚ → ℚ) (bd : BuildingData)
    (rc : RoofClassificationIn) : GutterEstimate :=
  let validated := pipeline_roof_type bd rc
  let perimeter_m := pipeline_perimeter sqrtQ cosDeg bd
  let processed := pipeline_segments sqrtQ cosDeg bd
  let ec := pipeline_eave_cf sqrtQ cosDeg bd rc
  let total_eave_m := ec.1
  let complexity_factor := ec.2
  let waste := pipeline_waste sqrtQ cosDeg bd rc
  let total_gutter_ft := final_gutter_total perimeter_m total_eave_m waste
  ⟨pyRound2 (final_eave_ft perimeter_m total_eave_m waste), total_gutter_ft,
    waste, validated, rc.confidence.getD 0,
    generate_warnings_improved validated total_gutter_ft total_eave_m processed
      bd.wholeRoofArea perimeter_m,
    estimated_range_of total_gutter_ft complexity_factor,
    estimate_downspouts_improved validated total_eave_m processed,
    complexity_factor, perimeter_m, pipeline_footprint sqrtQ cosDeg bd⟩

/-- Embedding of RoofClassifier._simple_segment_based_classification. -/
def simple_segment_based_classification (segment_count : ℕ) : String :=
  if segment_count = 1 then "shed"
  else if segment_count = 2 then "gable"
  else if segment_count = 3 then "gable"
  else if segment_count = 4 then "hip"
  else if segment_count = 5 then "hip"
  else if 6 ≤ segment_count then "complex"
  else "unknown"

/-- Embedding of RoofClassifier._calculate_simple_confidence. -/
def calculate_simple_confidence (segment_count : ℕ)
    (ai_type geometry_type : String) : ℚ :=
  let b0 : ℚ := 0.8
  let b1 :=
    if segment_count = 2 then b0 + 0.15
    else if segment_count = 4 then b0 + 0.1
    else if 2 ≤ segment_count ∧ segment_count ≤ 5 then b0 + 0.1
    else if 5 < segment_count then b0 - 0.1
    else b0
  let b2 :=
    if ai_type = geometry_type then b1 + 0.1
    else if (ai_type = "gable" ∨ ai_type = "hip") ∧
        (geometry_type = "gable" ∨ geometry_type = "hip") then b1 + 0.05
    else if ai_type = "unknown" ∧ geometry_type ≠ "unknown" then b1 + 0.1
    else b1
  let b3 :=
    if segment_count = 2 ∧ ai_type = "hip" then b2 - 0.2
    else if segment_count = 4 ∧ ai_type = "gable" then b2 - 0.2
    else b2
  max 0.4 (min 0.95 b3)

/-- Embedding of RoofClassifier._validate_roof_type_geometry; the segment
list is the roofSegmentStats list the source extracts from building_data.
Returns the fused (roof type, confidence) pair. -/
def validate_roof_type_geometry (ai_roof_type : String)
    (segs : List RawSegment) (ai_confidence : ℚ) : String × ℚ :=
  if segs = [] then (ai_roof_type, ai_confidence * 0.8)
  else
    let segment_count := segs.length
    let geometry_roof_type := simple_segment_based_classification segment_count
    let geometry_confidence :=
      calculate_simple_confidence segment_count ai_roof_type geometry_roof_type
    if ai_confidence + 0.15 < geometry_confidence then
      (geometry_roof_type, geometry_confidence)
    else if ai_confidence < geometry_confidence then
      (geometry_roof_type, (ai_confidence + geometry_confidence) / 2)
    else
      (ai_roof_type, max ai_confidence (geometry_confidence * 0.9))

/-- The constantly-zero function, used to instantiate the square-root and
cosine parameters on concrete inputs whose evaluation never applies them
(or applies them only in discarded branches). -/
def zeroF : ℚ → ℚ := fun _ => 0

/-- Downspout rule as worded in the specification and claim C7: identical
to estimate_downspouts_improved except that the scaled base is rounded to
the nearest integer instead of truncated, for comparison with the source
behaviour. -/
def downspouts_claimed (roof_type : String) (total_eave_m : ℚ) : ℤ :=
  let base_downspouts : ℤ := max 2 ⌈total_eave_m * 3.28084 / 45⌉
  if roof_type = "flat" then 1
  else if roof_type = "shed" then 2
  else if roof_type = "gable" ∨ roof_type = "gambrel" then
    max 2 (pyRound ((base_downspouts : ℚ) * 0.9))
  else if roof_type = "hip" ∨ roof_type = "mansard" then
    max 4 (pyRound ((base_downspouts : ℚ) * 1.1))
  else if roof_type = "complex" then
    max 4 (pyRound ((base_downspouts : ℚ) * 1.2))
  else base_downspouts

/-! Helper lemmas shared by the claim theorems. -/

lemma int_ceil_as_floor (q : ℚ) : ⌈q⌉ = -⌊-q⌋ := by
  rw [Int.floor_neg, neg_neg]

lemma pyInt_of_nonneg {q : ℚ} (h : 0 ≤ q) : pyInt q = ⌊q⌋ := if_pos h

lemma waste_factor_bounds (t : String) (cf : ℚ) (n : ℕ) :
    0.01 ≤ calculate_dynamic_waste_factor t cf n ∧
      calculate_dynamic_waste_factor t cf n ≤ 0.06 := by
  unfold calculate_dynamic_waste_factor
  exact ⟨le_min (by norm_num) (le_max_left _ _), min_le_left _ _⟩

lemma segment_complexity_factor_bounds (n : ℕ) :
    1 ≤ segment_complexity_factor n ∧ segment_complexity_factor n ≤ 1.4 := by
  unfold segment_complexity_factor
  split_ifs <;> norm_num

lemma complexity_factor_bounds (t : String) (ps : List ProcessedSegment)
    (p f : ℚ) :
    1 ≤ (calculate_eave_length_improved t ps p f).2 ∧
      (calculate_eave_length_improved t ps p f).2 ≤ 1.4 := by
  unfold calculate_eave_length_improved
  split_ifs
  · constructor <;> norm_num
  · constructor <;> norm_num
  · constructor <;> norm_num
  · exact segment_complexity_factor_bounds ps.length

lemma final_gutter_total_le (p e w : ℚ) (hp : 0 < p) (hw : 0 ≤ w) :
    final_gutter_total p e w ≤ ⌈p * 3.28084 * 1.3 * (1 + w)⌉ := by
  unfold final_gutter_total
  split_ifs with hg
  · apply Int.ceil_le_ceil
    have key : 0 ≤ p * (1 + w) := mul_nonneg hp.le (by linarith)
    nlinarith [key]
  · rw [not_and_or] at hg
    rcases hg with hg | hg
    · exact absurd hp hg
    · rw [not_lt] at hg
      have h2 : p * 3.28084 * 1.3 ≤ p * 3.28084 * 1.3 * (1 + w) := by
        have hpos : 0 ≤ p * 3.28084 * 1.3 := by positivity
        nlinarith [hpos]
      have h3 := le_trans hg (le_trans h2 (Int.le_ceil _))
      exact_mod_cast h3

lemma estimated_range_of_sound (T : ℤ) (cf : ℚ) (hT : 1 ≤ T) (h1 : 1 ≤ cf)
    (h2 : cf ≤ 1.4) :
    (estimated_range_of T cf).min ≤ (estimated_range_of T cf).target ∧
      (estimated_range_of T cf).target ≤ (estimated_range_of T cf).max := by
  have hTq : (1 : ℚ) ≤ (T : ℚ) := by exact_mod_cast hT
  unfold estimated_range_of
  dsimp only
  constructor
  · refine max_le hT ?_
    have harg : 0 ≤ (T : ℚ) * (1 - (0.08 + (cf - 1) * 0.03)) := by nlinarith
    rw [pyInt_of_nonneg harg]
    have hle : (T : ℚ) * (1 - (0.08 + (cf - 1) * 0.03)) ≤ (T : ℚ) := by nlinarith
    calc ⌊(T : ℚ) * (1 - (0.08 + (cf - 1) * 0.03))⌋
        ≤ ⌊(T : ℚ)⌋ := Int.floor_le_floor hle
      _ = T := Int.floor_intCast T
  · have harg : 0 ≤ (T : ℚ) * (1 + (0.08 + (cf - 1) * 0.03)) := by nlinarith
    rw [pyInt_of_nonneg harg, Int.le_floor]
    nlinarith

lemma perimeter_method1_nonneg (sqrtQ : ℚ → ℚ) (hs : ∀ q, 0 ≤ sqrtQ q)
    (wa : ℚ) : 0 ≤ perimeter_method1 sqrtQ wa := by
  unfold perimeter_method1
  split_ifs
  · have := hs wa; linarith
  · exact le_refl 0

lemma perimeter_method2_nonneg (cosDeg : ℚ → ℚ) (segs : List RawSegment)
    (lat e1 : ℚ) (h1 : 0 ≤ e1) : 0 ≤ perimeter_method2 cosDeg segs lat e1 := by
  unfold perimeter_method2
  dsimp only
  split_ifs with ha hb
  · linarith [hb.1]
  · exact h1
  · exact h1

lemma perimeter_method3_nonneg (sqrtQ : ℚ → ℚ) (hs : ∀ q, 0 ≤ sqrtQ q)
    (ga e2 : ℚ) (h2 : 0 ≤ e2) : 0 ≤ perimeter_method3 sqrtQ ga e2 := by
  unfold perimeter_method3
  split_ifs
  · have := hs ga; linarith
  · exact h2

lemma clamp_perimeter_cases (est : ℚ) (h : 0 ≤ est) :
    clamp_perimeter est = 0 ∨
      (20 ≤ clamp_perimeter est ∧ clamp_perimeter est ≤ 200) := by
  unfold clamp_perimeter
  split_ifs with h1 h2 h3
  · right; norm_num
  · right; norm_num
  · right; constructor <;> linarith
  · left; linarith

lemma simple_confidence_bounds (n : ℕ) (ai geo : String) :
    0.4 ≤ calculate_simple_confidence n ai geo ∧
      calculate_simple_confidence n ai geo ≤ 0.95 := by
  unfold calculate_simple_confidence
  exact ⟨le_max_left _ _, max_le (by norm_num) (min_le_left _ _)⟩

lemma estimate_perimeter_proj (s c : ℚ → ℚ) (bd : BuildingData)
    (rc : RoofClassificationIn) :
    (estimate_gutter_feet s c bd rc).perimeter_m = pipeline_perimeter s c bd :=
  rfl

lemma estimate_total_proj (s c : ℚ → ℚ) (bd : BuildingData)
    (rc : RoofClassificationIn) :
    (estimate_gutter_feet s c bd rc).total_gutter_ft =
      final_gutter_total (pipeline_perimeter s c bd)
        (pipeline_eave_cf s c bd rc).1 (pipeline_waste s c bd rc) :=
  rfl

lemma estimate_range_proj (s c : ℚ → ℚ) (bd : BuildingData)
    (rc : RoofClassificationIn) :
    (estimate_gutter_feet s c bd rc).estimated_range =
      estimated_range_of
        (final_gutter_total (pipeline_perimeter s c bd)
          (pipeline_eave_cf s c bd rc).1 (pipeline_waste s c bd rc))
        (pipeline_eave_cf s c bd rc).2 :=
  rfl

/-! Evaluation lemmas for the degenerate (empty) building input. -/

lemma empty_roof_type :
    pipeline_roof_type ⟨[], 0, none⟩ ⟨none, none⟩ = "unknown" := rfl

lemma empty_perimeter (s c : ℚ → ℚ) :
    pipeline_perimeter s c ⟨[], 0, none⟩ = 0 := by
  norm_num [pipeline_perimeter, calculate_building_perimeter,
    perimeter_method1, perimeter_method2, perimeter_method3, clamp_perimeter,
    bbox_lats, bbox_lons]

lemma empty_footprint (s c : ℚ → ℚ) :
    pipeline_footprint s c ⟨[], 0, none⟩ = 0 := by
  norm_num [pipeline_footprint, calculate_building_perimeter]

lemma empty_segments (s c : ℚ → ℚ) :
    pipeline_segments s c ⟨[], 0, none⟩ = [] := rfl

lemma empty_eave_cf (s c : ℚ → ℚ) :
    pipeline_eave_cf s c ⟨[], 0, none⟩ ⟨none, none⟩ = (0, 1) := by
  unfold pipeline_eave_cf
  rw [empty_roof_type, empty_segments, empty_perimeter]
  rfl

lemma empty_waste (s c : ℚ → ℚ) :
    pipeline_waste s c ⟨[], 0, none⟩ ⟨none, none⟩ = 1/50 := by
  unfold pipeline_waste
  rw [empty_roof_type, empty_eave_cf, empty_segments]
  simp [calculate_dynamic_waste_factor, type_waste]
  norm_num [max_def, min_def]

/-! Evaluation lemmas for a one-segment building whose bounding box spans
10 meters of latitude: the perimeter evaluates to 20 meters. -/

lemma onebox_roof_type :
    pipeline_roof_type ⟨[⟨0, 0, 50, some ⟨⟨0, 0⟩, ⟨10/111132, 0⟩⟩⟩], 0, none⟩
      ⟨some "gable", some (1/2)⟩ = "gable" := rfl

lemma onebox_perimeter (s c : ℚ → ℚ) :
    pipeline_perimeter s c
      ⟨[⟨0, 0, 50, some ⟨⟨0, 0⟩, ⟨10/111132, 0⟩⟩⟩], 0, none⟩ = 20 := by
  simp [pipeline_perimeter, calculate_building_perimeter, perimeter_method1,
    perimeter_method2, perimeter_method3, clamp_perimeter, bbox_lats,
    bbox_lons, list_min, list_max, calculate_meters_per_degree]
  norm_num [max_def, min_def]

lemma onebox_footprint (s c : ℚ → ℚ) :
    pipeline_footprint s c
      ⟨[⟨0, 0, 50, some ⟨⟨0, 0⟩, ⟨10/111132, 0⟩⟩⟩], 0, none⟩ = 0 := by
  norm_num [pipeline_footprint, calculate_building_perimeter]

lemma onebox_segments (s c : ℚ → ℚ) :
    pipeline_segments s c
      ⟨[⟨0, 0, 50, some ⟨⟨0, 0⟩, ⟨10/111132, 0⟩⟩⟩], 0, none⟩ =
      [⟨50, 0, 0, 10, 5, some ⟨⟨0, 0⟩, ⟨10/111132, 0⟩⟩⟩] := by
  have habs : |(10 : ℚ)/111132 - 0| = 10/111132 := by
    rw [abs_of_nonneg] <;> norm_num
  have habs2 : |(10 : ℚ)/111132| = 10/111132 := by
    rw [abs_of_nonneg]; norm_num
  simp [pipeline_segments, process_roof_segments_improved,
    process_segments_loop, process_one_segment, calculate_meters_per_degree,
    habs, habs2]
  norm_num [max_def, min_def]

lemma onebox_eave_cf (s c : ℚ → ℚ) :
    pipeline_eave_cf s c
      ⟨[⟨0, 0, 50, some ⟨⟨0, 0⟩, ⟨10/111132, 0⟩⟩⟩], 0, none⟩
      ⟨some "gable", some (1/2)⟩ = (10, 1) := by
  unfold pipeline_eave_cf
  rw [onebox_roof_type, onebox_segments, onebox_perimeter]
  simp [calculate_eave_length_improved]
  norm_num

lemma onebox_waste (s c : ℚ → ℚ) :
    pipeline_waste s c
      ⟨[⟨0, 0, 50, some ⟨⟨0, 0⟩, ⟨10/111132, 0⟩⟩⟩], 0, none⟩
      ⟨some "gable", some (1/2)⟩ = 1/50 := by
  unfold pipeline_waste
  rw [onebox_roof_type, onebox_eave_cf, onebox_segments]
  simp [calculate_dynamic_waste_factor, type_waste]
  norm_num [max_def, min_def]

/-! Claim theorems. -/

/-- C1 (amended): for a NONEMPTY processed-segment list the eave-length
calculator returns eave = perimeter * 0.5 with complexity 1.2 for hip and
1.0 for gable whenever the perimeter is positive, and for every other
resolved type (and for hip/gable without a positive perimeter) the sum of
the segment eave lengths, replaced by perimeter * 0.9 whenever that sum
exceeds perimeter * 1.2 with a positive perimeter, with complexity factor
1.0 / 1.2 / 1.4 for segment counts of at most 2 / at most 4 / more.  The
original claim omitted the nonempty-segment-list hypothesis: with an empty
list the source returns (0.0, 1.0) unconditionally. -/
theorem C1_eave_dispatch (t : String) (ps : List ProcessedSegment) (p f : ℚ)
    (h : ps ≠ []) :
    calculate_eave_length_improved t ps p f =
      if t = "hip" ∧ 0 < p then (p * 0.5, 1.2)
      else if t = "gable" ∧ 0 < p then (p * 0.5, 1.0)
      else
        ((if 0 < p ∧ p * 1.2 < ((ps.map (fun s => s.eave_m)).sum : ℚ) then
            p * 0.9
          else ((ps.map (fun s => s.eave_m)).sum : ℚ)),
          if ps.length ≤ 2 then 1.0
          else if ps.length ≤ 4 then 1.2
          else 1.4) := by
  unfold calculate_eave_length_improved segment_complexity_factor
  rw [if_neg h]

/-- C1 witness: a hip roof with one processed segment and perimeter 30
gets eave 15 and complexity 1.2. -/
theorem C1_eave_dispatch_witness :
    calculate_eave_length_improved "hip" [⟨50, 0, 0, 10, 5, none⟩] 30 0 =
      (15, 1.2) := by
  have h := C1_eave_dispatch "hip" [⟨50, 0, 0, 10, 5, none⟩] 30 0 (by simp)
  rw [h]
  norm_num

/-- C1 counterexample: with an empty processed-segment list, resolved type
hip and positive perimeter 30 (reachable when the perimeter comes from
whole-roof stats while no segments are listed), the source returns (0, 1)
and not (perimeter * 0.5, 1.2) as the claim states. -/
theorem C1_counterexample :
    calculate_eave_length_improved "hip" [] 30 0 = (0, 1) ∧
      ((0 : ℚ), (1 : ℚ)) ≠ ((30 : ℚ) * 0.5, (1.2 : ℚ)) :=
  ⟨rfl, by norm_num [Prod.ext_iff]⟩

/-- C2: with a positive computed perimeter, the returned gutter total is
final_gutter_total (the preliminary ceil of eave_ft * (1 + waste),
recomputed as ceil(perimeter_ft * 0.9 * (1 + waste)) when it exceeds
perimeter_ft * 1.3), and consequently never exceeds
ceil(perimeter_ft * 1.3 * (1 + waste)). -/
theorem C2_total_gutter_guard (s c : ℚ → ℚ) (bd : BuildingData)
    (rc : RoofClassificationIn)
    (h : 0 < (estimate_gutter_feet s c bd rc).perimeter_m) :
    (estimate_gutter_feet s c bd rc).total_gutter_ft =
      final_gutter_total (pipeline_perimeter s c bd)
        (pipeline_eave_cf s c bd rc).1 (pipeline_waste s c bd rc) ∧
    (estimate_gutter_feet s c bd rc).total_gutter_ft ≤
      ⌈(estimate_gutter_feet s c bd rc).perimeter_m * 3.28084 * 1.3 *
        (1 + (estimate_gutter_feet s c bd rc).waste_factor)⌉ := by
  refine ⟨rfl, ?_⟩
  have hw := waste_factor_bounds (pipeline_roof_type bd rc)
    (pipeline_eave_cf s c bd rc).2 (pipeline_segments s c bd).length
  show final_gutter_total (pipeline_perimeter s c bd)
      (pipeline_eave_cf s c bd rc).1 (pipeline_waste s c bd rc) ≤
    ⌈pipeline_perimeter s c bd * 3.28084 * 1.3 *
      (1 + pipeline_waste s c bd rc)⌉
  exact final_gutter_total_le _ _ _ h (le_trans (by norm_num) hw.1)

/-- C2 witness: a concrete one-segment building with perimeter 20 m. -/
theorem C2_total_gutter_guard_witness :
    (estimate_gutter_feet (fun _ => 0) (fun _ => 0)
        ⟨[⟨0, 0, 50, some ⟨⟨0, 0⟩, ⟨10/111132, 0⟩⟩⟩], 0, none⟩
        ⟨some "gable", some (1/2)⟩).total_gutter_ft ≤
      ⌈(estimate_gutter_feet (fun _ => 0) (fun _ => 0)
          ⟨[⟨0, 0, 50, some ⟨⟨0, 0⟩, ⟨10/111132, 0⟩⟩⟩], 0, none⟩
          ⟨some "gable", some (1/2)⟩).perimeter_m * 3.28084 * 1.3 *
        (1 + (estimate_gutter_feet (fun _ => 0) (fun _ => 0)
            ⟨[⟨0, 0, 50, some ⟨⟨0, 0⟩, ⟨10/111132, 0⟩⟩⟩], 0, none⟩
            ⟨some "gable", some (1/2)⟩).waste_factor)⌉ :=
  (C2_total_gutter_guard _ _ _ _
    (by rw [estimate_perimeter_proj, onebox_perimeter]; norm_num)).2

/-- C3 (amended): the correction table applies only when the building
center is present AND the segments carry a positive total ground area; in
that case the resolver forces shed / gable / hip / complex exactly as the
claim lists, with azimuths compared after rounding to 5 decimal places.
The original claim asserted the table for every nonempty segment list. -/
theorem C3_roof_type_table (rt : String) (segs : List RawSegment)
    (center : Option ℚ) (hc : center.isSome = true)
    (ha : 0 < ((segs.map (fun s => s.groundArea)).sum : ℚ)) :
    validate_roof_type rt segs center =
      if segs.length = 1 then
        (if rt ≠ "shed" ∧ rt ≠ "flat" then "shed" else rt)
      else if segs.length = 2 then (if rt ≠ "gable" then "gable" else rt)
      else if 4 ≤ segs.length ∧ 3 ≤ unique_azimuth_count segs then
        (if rt ≠ "hip" ∧ rt ≠ "mansard" ∧ rt ≠ "complex" then "hip" else rt)
      else if 4 < segs.length then
        (if rt ≠ "complex" then "complex" else rt)
      else rt := by
  have hne : segs ≠ [] := by rintro rfl; simp at ha
  rcases Option.isSome_iff_exists.mp hc with ⟨lat, rfl⟩
  simp only [validate_roof_type, if_neg hne, Option.isSome_some, if_true,
    if_pos ha]

/-- C3 witness: two segments with positive areas and a present center
force an unknown external guess to gable. -/
theorem C3_roof_type_table_witness :
    validate_roof_type "unknown" [⟨0, 0, 1, none⟩, ⟨0, 180, 1, none⟩]
      (some 40) = "gable" := by
  have h := C3_roof_type_table "unknown"
    [⟨0, 0, 1, none⟩, ⟨0, 180, 1, none⟩] (some 40) rfl (by norm_num)
  rw [h]
  norm_num

/-- C3 counterexample: one segment whose ground area is zero, with the
center present and external guess gable: the claim forces shed, the source
returns the guess unchanged because the total area is not positive. -/
theorem C3_counterexample :
    validate_roof_type "gable" [⟨0, 0, 0, none⟩] (some 40) = "gable" ∧
      ("gable" : String) ≠ "shed" :=
  ⟨by norm_num [validate_roof_type], by decide⟩

/-- C4 (amended): assuming the square-root routine is nonnegative, the
perimeter estimator returns either 0 (when every estimation method yields
nothing) or a value clamped into the interval from 20 to 200 meters.  The
original claim asserted membership in the interval for every input,
including inputs with no usable data, where the source returns 0. -/
theorem C4_perimeter_clamp (s c : ℚ → ℚ) (hs : ∀ q, 0 ≤ s q)
    (segs : List RawSegment) (center : Option ℚ) (wa : ℚ) :
    (calculate_building_perimeter s c segs center wa).1 = 0 ∨
      (20 ≤ (calculate_building_perimeter s c segs center wa).1 ∧
        (calculate_building_perimeter s c segs center wa).1 ≤ 200) := by
  have h1 := perimeter_method1_nonneg s hs wa
  have h2 := perimeter_method2_nonneg c segs (center.getD 40) _ h1
  have h3 := perimeter_method3_nonneg s hs (if wa ≠ 0 then wa else 0) _ h2
  exact clamp_perimeter_cases _ h3

/-- C4 witness: a building with a present center but no data. -/
theorem C4_perimeter_clamp_witness :
    (calculate_building_perimeter (fun _ => 0) (fun _ => 0) [] (some 40)
        0).1 = 0 ∨
      (20 ≤ (calculate_building_perimeter (fun _ => 0) (fun _ => 0) []
          (some 40) 0).1 ∧
        (calculate_building_perimeter (fun _ => 0) (fun _ => 0) [] (some 40)
          0).1 ≤ 200) :=
  C4_perimeter_clamp _ _ (fun _ => le_refl 0) _ _ _

/-- C4 counterexample: with no whole-roof stats, no segments and no
bounding boxes the estimator returns 0, which is not within 20 to 200. -/
theorem C4_counterexample :
    (calculate_building_perimeter (fun _ => 0) (fun _ => 0) [] none 0).1 =
      0 ∧
      ¬(20 ≤ (calculate_building_perimeter (fun _ => 0) (fun _ => 0) []
        none 0).1) :=
  ⟨rfl, by decide⟩

/-- Helper bound: the downspout estimate is always at least 1. -/
lemma downspouts_ge_one (t : String) (e : ℚ) (ps : List ProcessedSegment) :
    1 ≤ estimate_downspouts_improved t e ps := by
  simp only [estimate_downspouts_improved]
  split_ifs <;> norm_num

/-- C5 (amended): whenever the returned totalGutterFt is at least 1, the
estimated range is ordered: min ≤ target ≤ max, with range percentage
0.08 + (complexityFactor − 1) × 0.03 as in estimated_range_of.  The
original claim asserted the ordering for every input; it fails when
totalGutterFt = 0, because min is clamped up to 1 while target stays 0. -/
theorem C5_range_ordered (s c : ℚ → ℚ) (bd : BuildingData)
    (rc : RoofClassificationIn)
    (h : 1 ≤ (estimate_gutter_feet s c bd rc).total_gutter_ft) :
    (estimate_gutter_feet s c bd rc).estimated_range.min ≤
      (estimate_gutter_feet s c bd rc).estimated_range.target ∧
    (estimate_gutter_feet s c bd rc).estimated_range.target ≤
      (estimate_gutter_feet s c bd rc).estimated_range.max := by
  have hcf := complexity_factor_bounds (pipeline_roof_type bd rc)
    (pipeline_segments s c bd) (pipeline_perimeter s c bd)
    (pipeline_footprint s c bd)
  rw [estimate_range_proj]
  exact estimated_range_of_sound _ _ h hcf.1 hcf.2

/-- C5 witness: the one-segment building with perimeter 20 m has
totalGutterFt 34 and an ordered range. -/
theorem C5_range_ordered_witness :
    (estimate_gutter_feet (fun _ => 0) (fun _ => 0)
        ⟨[⟨0, 0, 50, some ⟨⟨0, 0⟩, ⟨10/111132, 0⟩⟩⟩], 0, none⟩
        ⟨some "gable", some (1/2)⟩).estimated_range.min ≤
      (estimate_gutter_feet (fun _ => 0) (fun _ => 0)
        ⟨[⟨0, 0, 50, some ⟨⟨0, 0⟩, ⟨10/111132, 0⟩⟩⟩], 0, none⟩
        ⟨some "gable", some (1/2)⟩).estimated_range.target ∧
    (estimate_gutter_feet (fun _ => 0) (fun _ => 0)
        ⟨[⟨0, 0, 50, some ⟨⟨0, 0⟩, ⟨10/111132, 0⟩⟩⟩], 0, none⟩
        ⟨some "gable", some (1/2)⟩).estimated_range.target ≤
      (estimate_gutter_feet (fun _ => 0) (fun _ => 0)
        ⟨[⟨0, 0, 50, some ⟨⟨0, 0⟩, ⟨10/111132, 0⟩⟩⟩], 0, none⟩
        ⟨some "gable", some (1/2)⟩).estimated_range.max :=
  C5_range_ordered _ _ _ _ (by
    rw [estimate_total_proj, onebox_eave_cf, onebox_waste, onebox_perimeter]
    norm_num [final_gutter_total, int_ceil_as_floor])

/-- C5 counterexample: on the empty input the returned range has min 1 and
target 0, so min ≤ target fails, refuting the claim as stated for all
inputs. -/
theorem C5_counterexample :
    ¬((estimate_gutter_feet zeroF zeroF ⟨[], 0, none⟩
        ⟨none, none⟩).estimated_range.min ≤
      (estimate_gutter_feet zeroF zeroF ⟨[], 0, none⟩
        ⟨none, none⟩).estimated_range.target) := by
  rw [estimate_range_proj, empty_eave_cf, empty_waste, empty_perimeter]
  norm_num [estimated_range_of, final_gutter_total, pyInt, int_ceil_as_floor,
    max_def]

/-- C6: the confidence-fusion procedure passes the AI pair through scaled
by 0.8 when no segments are present; otherwise it computes a geometry
confidence that lies within 0.3 and 0.95 (the source clamp is the tighter
interval from 0.4 to 0.95) and fuses by the three-way rule: geometry pair
outright above the 0.15 margin, geometry type with averaged confidence when
merely larger, else the AI type with confidence max(ai, geometry * 0.9). -/
theorem C6_confidence_fusion (ai : String) (segs : List RawSegment)
    (conf : ℚ) :
    (0.3 ≤ calculate_simple_confidence segs.length ai
        (simple_segment_based_classification segs.length) ∧
      calculate_simple_confidence segs.length ai
        (simple_segment_based_classification segs.length) ≤ 0.95) ∧
    validate_roof_type_geometry ai segs conf =
      (if segs = [] then (ai, conf * 0.8)
       else
         if conf + 0.15 <
             calculate_simple_confidence segs.length ai
               (simple_segment_based_classification segs.length) then
           (simple_segment_based_classification segs.length,
             calculate_simple_confidence segs.length ai
               (simple_segment_based_classification segs.length))
         else if conf <
             calculate_simple_confidence segs.length ai
               (simple_segment_based_classification segs.length) then
           (simple_segment_based_classification segs.length,
             (conf + calculate_simple_confidence segs.length ai
               (simple_segment_based_classification segs.length)) / 2)
         else
           (ai, max conf (calculate_simple_confidence segs.length ai
             (simple_segment_based_classification segs.length) * 0.9))) := by
  constructor
  · have hb := simple_confidence_bounds segs.length ai
      (simple_segment_based_classification segs.length)
    exact ⟨le_trans (by norm_num) hb.1, hb.2⟩
  · rfl

/-- C7 (amended): the downspout estimator computes
base = max(2, ceil(eave_ft / 45)) and dispatches per the claim table,
except that the scaled base is TRUNCATED with Python int() (toward zero)
rather than rounded; the result is always at least 1.  The original claim
stated round() where the source truncates. -/
theorem C7_downspouts (t : String) (e : ℚ) (ps : List ProcessedSegment) :
    estimate_downspouts_improved t e ps =
      (if t = "flat" then 1
       else if t = "shed" then 2
       else if t = "gable" ∨ t = "gambrel" then
         max 2 (pyInt (((max 2 ⌈e * 3.28084 / 45⌉ : ℤ) : ℚ) * 0.9))
       else if t = "hip" ∨ t = "mansard" then
         max 4 (pyInt (((max 2 ⌈e * 3.28084 / 45⌉ : ℤ) : ℚ) * 1.1))
       else if t = "complex" then
         max 4 (pyInt (((max 2 ⌈e * 3.28084 / 45⌉ : ℤ) : ℚ) * 1.2))
       else max 2 ⌈e * 3.28084 / 45⌉) ∧
    1 ≤ estimate_downspouts_improved t e ps :=
  ⟨rfl, downspouts_ge_one t e ps⟩

/-- C7 counterexample: with a gable roof of 30 m eave the base is 3, and
the source truncates 3 * 0.9 = 2.7 down to 2 downspouts, while the claim
as stated rounds 2.7 up to 3. -/
theorem C7_counterexample :
    estimate_downspouts_improved "gable" 30 [] = 2 ∧
      downspouts_claimed "gable" 30 = 3 := by
  constructor
  · simp [estimate_downspouts_improved]
    norm_num [int_ceil_as_floor, max_def, pyInt]
  · simp [downspouts_claimed]
    norm_num [int_ceil_as_floor, max_def, pyRound]

/-- C8: evaluating the segment processor on a first segment with positive
eave (depth 5) followed by a second segment whose eave computes to 0: the
source emits the second segment with the first segment depth value 5, not
0 as the specification states (the local variable depth_m is only assigned
under a positive eave and leaks across loop iterations; with no prior
assignment the dict construction raises and the segment is skipped while
the batch continues). -/
theorem C8_stale_depth (s c : ℚ → ℚ) :
    process_roof_segments_improved s c
      [⟨0, 0, 50, some ⟨⟨0, 0⟩, ⟨10/111132, 0⟩⟩⟩, ⟨0, 0, 0, none⟩] none 0 =
      [⟨50, 0, 0, 10, 5, some ⟨⟨0, 0⟩, ⟨10/111132, 0⟩⟩⟩,
        ⟨0, 0, 0, 0, 5, none⟩] ∧
    (5 : ℚ) ≠ 0 := by
  constructor
  · have habs : |(10 : ℚ)/111132 - 0| = 10/111132 := by
      rw [abs_of_nonneg] <;> norm_num
    have habs2 : |(10 : ℚ)/111132| = 10/111132 := by
      rw [abs_of_nonneg]; norm_num
    simp [process_roof_segments_improved, process_segments_loop,
      process_one_segment, calculate_meters_per_degree, habs, habs2]
    norm_num [max_def, min_def]
  · norm_num

/-- C9 (amended): on the degenerate input (no segments, no bounding boxes,
no whole-roof area) the pipeline completes and returns perimeter 0, eave
length 0, totalGutterFt 0, waste 0.02, downspouts 2, warnings including the
small-roof (low/zero eave) warning, and estimated range with min 1, max 0
and target 0.  The original claim stated the range [0, 0, 0]; the source
clamps the range minimum up to 1 even for a zero total. -/
theorem C9_degenerate (s c : ℚ → ℚ) :
    estimate_gutter_feet s c ⟨[], 0, none⟩ ⟨none, none⟩ =
      ⟨0, 0, 1/50, "unknown", 0,
        [GutterWarning.fewSegments, GutterWarning.unknownRoofType,
          GutterWarning.smallRoof],
        ⟨1, 0, 0⟩, 2, 1, 0, 0⟩ := by
  simp only [estimate_gutter_feet, empty_roof_type, empty_perimeter,
    empty_segments, empty_eave_cf, empty_waste, empty_footprint]
  simp [final_gutter_total, final_eave_ft, estimated_range_of,
    generate_warnings_improved, estimate_downspouts_improved]
  norm_num [pyRound2, pyRound, pyInt, int_ceil_as_floor, max_def, min_def]

/-- C9 counterexample: the estimated range returned on the degenerate input
is (1, 0, 0), not (0, 0, 0) as the claim states. -/
theorem C9_counterexample :
    (estimate_gutter_feet zeroF zeroF ⟨[], 0, none⟩
        ⟨none, none⟩).estimated_range = ⟨1, 0, 0⟩ ∧
      ((⟨1, 0, 0⟩ : EstimatedRange) ≠ ⟨0, 0, 0⟩) := by
  constructor
  · rw [estimate_range_proj, empty_eave_cf, empty_waste, empty_perimeter]
    norm_num [estimated_range_of, final_gutter_total, pyInt,
      int_ceil_as_floor, max_def]
  · decide

/-- C10: the confidence field of the returned estimate equals the input
classification confidence (0 when absent), unchanged, for every input; the
second conjunct exhibits an input whose roof type is corrected from hip to
gable while the supplied confidence 0.9 is passed through exactly. -/
theorem C10_confidence_passthrough :
    (∀ (s c : ℚ → ℚ) (bd : BuildingData) (rc : RoofClassificationIn),
      (estimate_gutter_feet s c bd rc).confidence = rc.confidence.getD 0) ∧
    ((estimate_gutter_feet zeroF zeroF
        ⟨[⟨0, 0, 1, none⟩, ⟨0, 180, 1, none⟩], 0, some 40⟩
        ⟨some "hip", some (9/10)⟩).roof_type = "gable" ∧
      (estimate_gutter_feet zeroF zeroF
        ⟨[⟨0, 0, 1, none⟩, ⟨0, 180, 1, none⟩], 0, some 40⟩
        ⟨some "hip", some (9/10)⟩).confidence = 9/10) := by
  refine ⟨fun s c bd rc => rfl, ?_, rfl⟩
  show pipeline_roof_type
      ⟨[⟨0, 0, 1, none⟩, ⟨0, 180, 1, none⟩], 0, some 40⟩
      ⟨some "hip", some (9/10)⟩ = "gable"
  simp [pipeline_roof_type, validate_roof_type]
